import Mathlib

/-!
Shallow embedding of `core/domain/exp_jobs_one_off.py` (Oppia one-off
exploration jobs).  Each job class contributes a `map` and a `reduce`
function.  External collaborators (the datastore, `exp_fetchers`,
`rights_manager`, `html_validation_service`, validation of domain
objects, ...) are not part of the file; their results are passed in as
explicit oracle parameters, with `Except String _` standing for calls
that may raise.  Side effects (datastore writes, deletions, logging)
are reified as an explicit `Effect` list returned next to the list of
emitted `(key, value)` pairs, in program order.
-/

/-- Side effects a map/reduce step of this file can perform, reified. -/
inductive Effect where
  /-- `logging.error` / `logging.exception` with the given message. -/
  | log (msg : String)
  /-- `exp_services.update_exploration` with the migration commit cmds:
  a versioned write through the document store's commit API. -/
  | versionedWrite (expId : String) (fromVersion toVersion : Nat)
  /-- `rights_manager.update_activity_first_published_msec`. -/
  | rightsFirstPublishedWrite (expId : String) (msec : Int)
  /-- `item.delete()`: direct deletion of the scanned model, bypassing
  any commit history. -/
  | directDelete (modelId : String)
  /-- `exp_services.save_multi_exploration_math_rich_text_info_model`
  on a list of `n` info objects. -/
  | saveMathRichTextInfoModels (n : Nat)
  deriving DecidableEq, Repr

/-- `True` exactly for the `versionedWrite` constructor. -/
def Effect.isVersionedWrite : Effect → Bool
  | .versionedWrite _ _ _ => true
  | _ => false

/-- `True` exactly for the `log` constructor. -/
def Effect.isLog : Effect → Bool
  | .log _ => true
  | _ => false

/-- A stored `ExplorationModel` record, restricted to the fields this
file reads directly: `id`, the soft-deletion flag `deleted`,
`states_schema_version` and `title`.  The states themselves are only
ever handed to external services, which are modelled as oracles. -/
structure ExplorationModel where
  id : String
  deleted : Bool
  states_schema_version : Nat
  title : String := ""
  deriving DecidableEq, Repr

/-- A stored `ExplorationRightsSnapshotContentModel` record, restricted
to what `ExplorationFirstPublishedOneOffJob.map` reads:
`content['status']`, `get_unversioned_instance_id()` and the creation
time already converted to milliseconds.  Like every storage model it
carries a `deleted` flag, which this job's map never consults. -/
structure ExplorationRightsSnapshotContentModel where
  status : String
  instanceId : String
  createdOnMsec : Int
  deleted : Bool
  deriving DecidableEq, Repr

/-- A stored `ExplorationMathRichTextInfoModel` record.  The deletion
job reads nothing from it; it carries its id and the base-model
soft-deletion flag. -/
structure ExplorationMathRichTextInfoModel where
  id : String
  deleted : Bool
  deriving DecidableEq, Repr

/-- `rights_manager.ACTIVITY_STATUS_PUBLIC`. -/
def ACTIVITY_STATUS_PUBLIC : String := "public"

/-- `rights_manager.ACTIVITY_STATUS_PRIVATE` /
`constants.ACTIVITY_STATUS_PRIVATE`. -/
def ACTIVITY_STATUS_PRIVATE : String := "private"

/-- Python `needle in hay` on strings: substring containment. -/
def containsSub (needle hay : List Char) : Bool :=
  (List.range (hay.length + 1)).any (fun i => needle.isPrefixOf (hay.drop i))

/-- Python `hay.find(needle)`: smallest index where `needle` occurs,
`none` when absent (Python returns `-1`). -/
def findSub (needle hay : List Char) : Option Nat :=
  (List.range (hay.length + 1)).find? (fun i => needle.isPrefixOf (hay.drop i))

/-! ### ExplorationFirstPublishedOneOffJob -/

/-- `ExplorationFirstPublishedOneOffJob.map`.  Scans
`ExplorationRightsSnapshotContentModel`; emits
`(unversioned instance id, created_on in msecs)` whenever the snapshot
status is public.  There is no `item.deleted` check. -/
def ExplorationFirstPublishedOneOffJob.map
    (item : ExplorationRightsSnapshotContentModel) :
    List (String × Int) × List Effect :=
  if item.status = ACTIVITY_STATUS_PUBLIC then
    ([(item.instanceId, item.createdOnMsec)], [])
  else ([], [])

/-- `ExplorationFirstPublishedOneOffJob.reduce`.  `rights` is the
result of `rights_manager.get_exploration_rights(exp_id, strict=False)`
(`none` when the rights model is missing).  The stringified commit
times are modelled already parsed back to integers (`ast.literal_eval`
inverts the engine's stringification).  Yields nothing; on success it
performs a rights-store write of the minimum commit time.  Python's
`min` raises on an empty list, hence the `Except`. -/
def ExplorationFirstPublishedOneOffJob.reduce (rights : Option Unit)
    (exp_id : String) (commit_times_msecs : List Int) :
    Except String (List (String × Int) × List Effect) :=
  match rights with
  | none => .ok ([], [])
  | some _ =>
    match commit_times_msecs.min? with
    | none => .error "min() arg is an empty sequence"
    | some m => .ok ([], [Effect.rightsFirstPublishedWrite exp_id m])

/-! ### ExplorationValidityJobManager -/

/-- `ExplorationValidityJobManager.map`.  `status` is the rights status
of the exploration; `validate strict` is the outcome of
`exploration.validate(strict=...)`, `.error e` when it raises
`ValidationError e`.  A caught validation error is emitted under the
exploration id. -/
def ExplorationValidityJobManager.map
    (validate : Bool → Except String Unit) (status : String)
    (item : ExplorationModel) : List (String × String) × List Effect :=
  if item.deleted then ([], [])
  else
    match validate (status ≠ ACTIVITY_STATUS_PRIVATE) with
    | .ok _ => ([], [])
    | .error e => ([(item.id, e)], [])

/-- `ExplorationValidityJobManager.reduce`: passes the grouped values
through under the same key. -/
def ExplorationValidityJobManager.reduce (key : String)
    (values : List String) : List (String × List String) :=
  [(key, values)]

/-! ### ExplorationMigrationAuditJob -/

/-- Emission values of the migration audit job: error messages under
`MIGRATION_ERROR`, the number `1` under `SUCCESS`, and (in reduce) a
count or a list of error messages. -/
inductive AuditVal where
  | err (s : String)
  | n (k : Nat)
  | errs (l : List String)
  deriving DecidableEq, Repr

/-- The message built at lines 137-139:
`'Exploration %s failed migration to states v%s: %s'`. -/
def auditErrMsg (expId : String) (toVersion : Nat) (e : String) : String :=
  "Exploration " ++ expId ++ " failed migration to states v" ++
    toString toVersion ++ ": " ++ e

/-- The `while states_schema_version < current_state_schema_version`
loop of `ExplorationMigrationAuditJob.map`.  `step v` is the outcome of
`exp_domain.Exploration.update_states_from_model` at schema version
`v`.  Returns the final value of `states_schema_version` together with
the emissions and effects in program order: on an exception the error
is logged, one `MIGRATION_ERROR` pair is emitted and the loop breaks
without incrementing; on success the version is incremented and, when
it has just reached the current version, one `('SUCCESS', 1)` pair is
emitted. -/
def auditLoop (step : Nat → Except String Unit) (expId : String)
    (current v : Nat) : Nat × List (String × AuditVal) × List Effect :=
  if hv : v < current then
    match step v with
    | .error e =>
      (v, [("MIGRATION_ERROR", AuditVal.err (auditErrMsg expId (v + 1) e))],
        [Effect.log (auditErrMsg expId (v + 1) e)])
    | .ok _ =>
      let rest := auditLoop step expId current (v + 1)
      (rest.1,
        (if v + 1 = current then [("SUCCESS", AuditVal.n 1)] else [])
          ++ rest.2.1,
        rest.2.2)
  else (v, [], [])
termination_by current - v
decreasing_by omega

/-- `ExplorationMigrationAuditJob.map`: skip soft-deleted records, then
run the migration loop from the record's stored states schema version
up to `feconf.CURRENT_STATE_SCHEMA_VERSION` (`current`). -/
def ExplorationMigrationAuditJob.map (step : Nat → Except String Unit)
    (current : Nat) (item : ExplorationModel) :
    Nat × List (String × AuditVal) × List Effect :=
  if item.deleted then (item.states_schema_version, [], [])
  else auditLoop step item.id current item.states_schema_version

/-- `ExplorationMigrationAuditJob.reduce`: for `SUCCESS` the count of
grouped values, otherwise the values themselves. -/
def ExplorationMigrationAuditJob.reduce (key : String)
    (values : List String) : List (String × AuditVal) :=
  if key = "SUCCESS" then [(key, AuditVal.n values.length)]
  else [(key, AuditVal.errs values)]

/-! ### ExplorationMigrationJobManager -/

/-- The message logged at lines 183-185:
`'Exploration %s failed non-strict validation: %s'`. -/
def nonStrictValidationMsg (expId : String) (e : String) : String :=
  "Exploration " ++ expId ++ " failed non-strict validation: " ++ e

/-- `ExplorationMigrationJobManager.map`.  `load` is the outcome of
`exp_fetchers.get_exploration_by_id(item.id)` (line 179, outside any
`try`, so its exceptions propagate — hence the outer `Except`);
`validate` the outcome of `old_exploration.validate()` (line 181,
caught).  A record failing non-strict validation is logged and
skipped.  A record whose stored states schema version differs from
`current` is updated through
`exp_services.update_exploration` (a versioned commit) and one
`('SUCCESS', exp id)` pair is emitted; otherwise nothing happens. -/
def ExplorationMigrationJobManager.map (load : Except String Unit)
    (validate : Except String Unit) (current : Nat)
    (item : ExplorationModel) :
    Except String (List (String × String) × List Effect) :=
  if item.deleted then .ok ([], [])
  else
    match load with
    | .error e => .error e
    | .ok _ =>
      match validate with
      | .error e => .ok ([], [Effect.log (nonStrictValidationMsg item.id e)])
      | .ok _ =>
        if item.states_schema_version ≠ current then
          .ok ([("SUCCESS", item.id)],
            [Effect.versionedWrite item.id item.states_schema_version current])
        else .ok ([], [])

/-- `ExplorationMigrationJobManager.reduce`: the count of grouped
values under the same key. -/
def ExplorationMigrationJobManager.reduce (key : String)
    (values : List String) : List (String × Nat) :=
  [(key, values.length)]

/-! ### ExplorationMathSvgFilenameValidationOneOffJob -/

/-- The per-state dictionary built at lines 241-245 (state name, error
list and its length). -/
structure InvalidTagsInfo where
  state_name : String
  error_list : List String
  no_of_invalid_tags : Nat
  deriving DecidableEq, Repr

/-- `ExplorationMathSvgFilenameValidationOneOffJob.map`.  `states`
pairs each state name with the error list returned by
`html_validation_service.validate_svg_filenames_in_math_rich_text` on
that state's concatenated html.  States with a non-empty error list
are collected; when any exist, one
`('Found invalid tags', (exp id, infos))` pair is emitted. -/
def ExplorationMathSvgFilenameValidationOneOffJob.map
    (states : List (String × List String)) (item : ExplorationModel) :
    List (String × (String × List InvalidTagsInfo)) × List Effect :=
  if item.deleted then ([], [])
  else
    let invalid_tags_info_in_exp :=
      (states.filter (fun p => 0 < p.2.length)).map
        (fun p => InvalidTagsInfo.mk p.1 p.2 p.2.length)
    if 0 < invalid_tags_info_in_exp.length then
      ([("Found invalid tags", (item.id, invalid_tags_info_in_exp))], [])
    else ([], [])

/-- Reduce values of the SVG filename validation job: the overall
summary dictionary of lines 262-265 or the per-exploration detail
mapping (with `no_of_invalid_tags` deleted from each entry). -/
inductive SvgReduceVal where
  | overall (no_of_explorations_with_no_svgs no_of_invalid_tags : Nat)
  | details (info : List (String × List (String × List String)))
  deriving DecidableEq, Repr

/-- `ExplorationMathSvgFilenameValidationOneOffJob.reduce` (values
modelled already parsed back from their stringification).  Note that
it yields TWO pairs, neither under the incoming key. -/
def ExplorationMathSvgFilenameValidationOneOffJob.reduce (key : String)
    (values : List (String × List InvalidTagsInfo)) :
    List (String × SvgReduceVal) :=
  let no_of_invalid_tags :=
    (values.map (fun p => (p.2.map (fun v => v.no_of_invalid_tags)).sum)).sum
  let invalid_tags_info :=
    values.map (fun p => (p.1, p.2.map (fun v => (v.state_name, v.error_list))))
  [("Overall result.", SvgReduceVal.overall values.length no_of_invalid_tags),
   ("Detailed information on invalid tags. ",
     SvgReduceVal.details invalid_tags_info)]

/-! ### ExplorationMockMathMigrationOneOffJob -/

/-- The key built at lines 304-307:
`'exp_id: %s, exp_status: %s failed validation after migration'`. -/
def mockMathKey (expId status : String) : String :=
  "exp_id: " ++ expId ++ ", exp_status: " ++ status ++
    " failed validation after migration"

/-- `ExplorationMockMathMigrationOneOffJob.map`.  `status` is the
exploration's rights status; `states` pairs each state name with the
error list returned by
`validate_math_tags_in_html_with_attribute_math_content` on the
converted html of that state.  One pair is emitted per state with a
non-empty error list. -/
def ExplorationMockMathMigrationOneOffJob.map (status : String)
    (states : List (String × List String)) (item : ExplorationModel) :
    List (String × InvalidTagsInfo) × List Effect :=
  if item.deleted then ([], [])
  else
    ((states.filter (fun p => 0 < p.2.length)).map
      (fun p => (mockMathKey item.id status, InvalidTagsInfo.mk p.1 p.2 p.2.length)),
     [])

/-- `ExplorationMockMathMigrationOneOffJob.reduce`: pass-through. -/
def ExplorationMockMathMigrationOneOffJob.reduce (key : String)
    (values : List String) : List (String × List String) :=
  [(key, values)]

/-! ### ExplorationMathRichTextInfoModelGenerationOneOffJob -/

/-- `ExplorationMathRichTextInfoModelGenerationOneOffJob._SUCCESS_KEY`. -/
def mathTagsSuccessKey : String := "exploration-with-math-tags"

/-- Map emission values of the math rich-text info generation job:
either a validation error message or the
`(exp id, latex strings without svg)` payload. -/
inductive GenVal where
  | err (s : String)
  | info (expId : String) (latexList : List String)
  deriving DecidableEq, Repr

/-- `ExplorationMathRichTextInfoModelGenerationOneOffJob.map`.
`validate` is the outcome of `exploration.validate()` (caught: on
failure the error is logged and one `('validation_error', msg)` pair
is emitted); `latexList` is the result of
`get_latex_strings_without_svg_from_html` on the exploration's
concatenated html. -/
def ExplorationMathRichTextInfoModelGenerationOneOffJob.map
    (validate : Except String Unit) (latexList : List String)
    (item : ExplorationModel) : List (String × GenVal) × List Effect :=
  if item.deleted then ([], [])
  else
    match validate with
    | .error e =>
      ([("validation_error", GenVal.err (nonStrictValidationMsg item.id e))],
        [Effect.log (nonStrictValidationMsg item.id e)])
    | .ok _ =>
      if 0 < latexList.length then
        ([(mathTagsSuccessKey, GenVal.info item.id latexList)], [])
      else ([], [])

/-- The summary dictionary of lines 401-407. -/
structure GenSummary where
  estimated_no_of_batches : Nat
  longest_raw_latex_string : String
  number_of_explorations_having_math : Nat
  total_number_of_svgs_required : Nat
  deriving DecidableEq, Repr

/-- Reduce output values of the generation job. -/
inductive GenReduceVal where
  | summary (s : GenSummary)
  | passthrough (values : List (String × List String))
  deriving DecidableEq, Repr

/-- Python `max(x, y, key=len)`: `y` only when strictly longer. -/
def maxByLen (x y : String) : String :=
  if x.length < y.length then y else x

/-- The accumulator of the batch-estimation loop at lines 377-396:
`(estimated_no_of_batches,
approx_size_of_math_svgs_bytes_in_current_batch,
longest_raw_latex_string, total_number_of_svgs_required)`. -/
def genReduceStep (svgSize : List String → Nat)
    (longestOf : List String → String) (maxBatchBytes : Nat)
    (acc : Nat × Nat × String × Nat) (p : String × List String) :
    Nat × Nat × String × Nat :=
  let bytes := svgSize p.2
  let total := acc.2.2.2 + p.2.length
  let longest := maxByLen (longestOf p.2) acc.2.2.1
  let cur := acc.2.1 + bytes
  if maxBatchBytes < cur then (acc.1 + 1, 0, longest, total)
  else (acc.1, cur, longest, total)

/-- `ExplorationMathRichTextInfoModelGenerationOneOffJob.reduce`
(values modelled already parsed back from their stringification).
`svgSize` models `ExplorationMathRichTextInfo.get_svg_size_in_bytes`
and `longestOf` `get_longest_latex_expression` on the info built from
each `(exp id, latex list)` value; `maxBatchBytes` is
`feconf.MAX_SIZE_OF_MATH_SVGS_BATCH_BYTES`.  Under the success key it
saves the info models and yields the summary; otherwise it passes the
values through. -/
def ExplorationMathRichTextInfoModelGenerationOneOffJob.reduce
    (svgSize : List String → Nat) (longestOf : List String → String)
    (maxBatchBytes : Nat) (key : String)
    (values : List (String × List String)) :
    List (String × GenReduceVal) × List Effect :=
  if key = mathTagsSuccessKey then
    let acc := values.foldl (genReduceStep svgSize longestOf maxBatchBytes)
      (1, 0, "", 0)
    ([(key, GenReduceVal.summary
        (GenSummary.mk acc.1 acc.2.2.1 values.length acc.2.2.2))],
     [Effect.saveMathRichTextInfoModels values.length])
  else ([(key, GenReduceVal.passthrough values)], [])

/-! ### ExplorationMathRichTextInfoModelDeletionOneOffJob -/

/-- `ExplorationMathRichTextInfoModelDeletionOneOffJob.map`: deletes
the scanned model directly and emits `('model_deleted', 1)`,
unconditionally — there is no `item.deleted` check. -/
def ExplorationMathRichTextInfoModelDeletionOneOffJob.map
    (item : ExplorationMathRichTextInfoModel) :
    List (String × Nat) × List Effect :=
  ([("model_deleted", 1)], [Effect.directDelete item.id])

/-- `ExplorationMathRichTextInfoModelDeletionOneOffJob.reduce`: sums
the (parsed) grouped values and reports one message (the typo
`delelted` is the code's). -/
def ExplorationMathRichTextInfoModelDeletionOneOffJob.reduce
    (key : String) (values : List Nat) : List (String × List String) :=
  [(key, [toString values.sum ++ " models successfully delelted."])]

/-! ### ViewableExplorationsAuditJob -/

/-- `ViewableExplorationsAuditJob.map`.  `rights` is the result of
`get_exploration_rights(item.id, strict=False)`: `none` when missing,
otherwise the pair `(status, viewable_if_private)`.  Emits
`(exp id, title)` for private explorations viewable if private. -/
def ViewableExplorationsAuditJob.map (rights : Option (String × Bool))
    (item : ExplorationModel) : List (String × String) × List Effect :=
  if item.deleted then ([], [])
  else
    match rights with
    | none => ([], [])
    | some (status, viewable_if_private) =>
      if status = ACTIVITY_STATUS_PRIVATE ∧ viewable_if_private then
        ([(item.id, item.title)], [])
      else ([], [])

/-- `ViewableExplorationsAuditJob.reduce`: pass-through. -/
def ViewableExplorationsAuditJob.reduce (key : String)
    (values : List String) : List (String × List String) :=
  [(key, values)]

/-! ### HintsAuditOneOffJob -/

/-- `HintsAuditOneOffJob.map`.  `states` pairs each state name with
`len(state.interaction.hints)`.  One pair is emitted per state with at
least one hint, keyed by the hint count. -/
def HintsAuditOneOffJob.map (states : List (String × Nat))
    (item : ExplorationModel) : List (String × String) × List Effect :=
  if item.deleted then ([], [])
  else
    ((states.filter (fun p => 0 < p.2)).map
      (fun p => (toString p.2, item.id ++ " " ++ p.1)), [])

/-- `HintsAuditOneOffJob.reduce`: pass-through. -/
def HintsAuditOneOffJob.reduce (key : String) (values : List String) :
    List (String × List String) :=
  [(key, values)]

/-! ### ExplorationContentValidationJobForCKEditor -/

/-- The key built at line 507-509:
`'Error %s when loading exploration'`. -/
def loadingErrorKey (e : String) : String :=
  "Error " ++ e ++ " when loading exploration"

/-- `ExplorationContentValidationJobForCKEditor.map`.  `load` is the
outcome of `exp_fetchers.get_exploration_from_model(item)` (caught: on
failure one error pair holding the exp id is emitted); `err_dict` is
`html_validation_service.validate_rte_format` as an association list
(key order preserved).  One pair is emitted per error key with a
non-empty error list. -/
def ExplorationContentValidationJobForCKEditor.map
    (load : Except String Unit) (err_dict : List (String × List String))
    (item : ExplorationModel) :
    List (String × List String) × List Effect :=
  if item.deleted then ([], [])
  else
    match load with
    | .error e => ([(loadingErrorKey e, [item.id])], [])
    | .ok _ =>
      ((err_dict.filter (fun p => p.2 ≠ [])).map
        (fun p => (p.1 ++ " Exp Id: " ++ item.id, p.2)), [])

/-- Python `key[:j]` for `j = exp_id_index - 1` where `exp_id_index`
may be `0` (then `key[:-1]` drops the last character). -/
def pySliceBeforeIdx (key : String) (exp_id_index : Nat) : String :=
  if exp_id_index = 0 then String.mk key.data.dropLast
  else String.mk (key.data.take (exp_id_index - 1))

/-- `ExplorationContentValidationJobForCKEditor.reduce` (values
modelled already parsed back from their stringification).
`list(set().union(*final_values))` is modelled as the deduplicated
concatenation; Python's set iteration order is unspecified, so the
model fixes first-occurrence order.  When the key contains `Exp Id:`
the key is split there and the id part appended to the values. -/
def ExplorationContentValidationJobForCKEditor.reduce (key : String)
    (values : List (List String)) : List (String × List String) :=
  let output_values := values.flatten.dedup
  match findSub "Exp Id:".data key.data with
  | none => [(key, output_values)]
  | some exp_id_index =>
    [(pySliceBeforeIdx key exp_id_index,
      output_values ++ [String.mk (key.data.drop exp_id_index)])]

/-! ### RTECustomizationArgsValidationOneOffJob -/

/-- `RTECustomizationArgsValidationOneOffJob.map`.  `load` is the
outcome of `exp_fetchers.get_exploration_from_model(item)` (caught);
`err_dict` is `html_validation_service.validate_customization_args` as
an association list.  The exp id is appended to every error value and
one pair is emitted per error key (no emptiness filter here). -/
def RTECustomizationArgsValidationOneOffJob.map
    (load : Except String Unit) (err_dict : List (String × List String))
    (item : ExplorationModel) :
    List (String × List String) × List Effect :=
  if item.deleted then ([], [])
  else
    match load with
    | .error e => ([(loadingErrorKey e, [item.id])], [])
    | .ok _ =>
      (err_dict.map (fun p => (p.1, p.2 ++ ["Exp ID: " ++ item.id])), [])

/-- Reduce output values of the RTE customization-args job: the
flattened error list (loading-error keys) or the sorted list of
`(exp id, error)` pairs. -/
inductive RteReduceVal where
  | flat (values : List String)
  | pairs (values : List (String × String))
  deriving DecidableEq, Repr

/-- Lexicographic comparison used to model Python's
`output_values.sort()` on a list of string pairs. -/
def rtePairLE (a b : String × String) : Bool :=
  a.1 < b.1 ∨ (a.1 = b.1 ∧ a.2 ≤ b.2)

/-- The `while index < len(flattened_values)` pairing loop of lines
582-589: reads the elements at `index` and `index + 1` and appends
`(flattened_values[index + 1], flattened_values[index])`, stepping by
2.  On a list of odd length the final round's `index + 1` access is
out of bounds and raises `IndexError`. -/
def rtePairingLoop : List String → Except String (List (String × String))
  | [] => .ok []
  | [_] => .error "IndexError: list index out of range"
  | err :: expId :: rest =>
    (rtePairingLoop rest).map (fun l => (expId, err) :: l)

/-- `RTECustomizationArgsValidationOneOffJob.reduce` (values modelled
already parsed back from their stringification).  Keys containing
`loading exploration` pass the flattened values through; for other
keys the flattened `[err1, expid1, err2, expid2, ...]` list is paired
up into sorted `(exp id, error)` pairs — raising `IndexError` when the
flattened list has odd length. -/
def RTECustomizationArgsValidationOneOffJob.reduce (key : String)
    (values : List (List String)) :
    Except String (List (String × RteReduceVal)) :=
  let flattened_values := values.flatten
  if containsSub "loading exploration".data key.data then
    .ok [(key, RteReduceVal.flat flattened_values)]
  else
    (rtePairingLoop flattened_values).map
      (fun out => [(key, RteReduceVal.pairs (out.mergeSort rtePairLE))])

/-! ## Helper lemmas -/

/-- The pairing loop succeeds on every even-length list. -/
theorem rtePairingLoop_even_ok :
    ∀ l : List String, l.length % 2 = 0 →
      ∃ out, rtePairingLoop l = .ok out
  | [], _ => ⟨[], rfl⟩
  | [_], h => by simp at h
  | a :: b :: rest, h => by
    obtain ⟨out, hout⟩ :=
      rtePairingLoop_even_ok rest (by simp only [List.length_cons] at h; omega)
    exact ⟨(b, a) :: out, by simp [rtePairingLoop, hout, Except.map]⟩

/-- The pairing loop raises `IndexError` on every odd-length list. -/
theorem rtePairingLoop_odd_err :
    ∀ l : List String, l.length % 2 = 1 →
      rtePairingLoop l = .error "IndexError: list index out of range"
  | [], h => by simp at h
  | [_], _ => rfl
  | a :: b :: rest, h => by
    have hout := rtePairingLoop_odd_err rest
      (by simp only [List.length_cons] at h; omega)
    simp [rtePairingLoop, hout, Except.map]

/-- Summing the constant-1 image of a list gives its length. -/
theorem sum_map_one {α : Type} (l : List α) :
    (l.map (fun _ => (1 : Nat))).sum = l.length := by
  induction l with
  | nil => rfl
  | cons a t ih => simp [ih, Nat.add_comm]

/-! ## Claims -/

/-- C10: in the RTE customization-args validation job's reduce, for a
key not containing `loading exploration`, the pairing loop's accesses
at `index` and `index + 1` are in bounds for every even-length
flattened value list (no exception), and for an odd-length flattened
list the final `flattened_values[index + 1]` access is out of bounds
and raises `IndexError`. -/
theorem rte_reduce_pairing_bounds (key : String)
    (values : List (List String))
    (hkey : containsSub "loading exploration".data key.data = false) :
    (values.flatten.length % 2 = 0 →
      ∃ out, RTECustomizationArgsValidationOneOffJob.reduce key values =
        .ok out) ∧
    (values.flatten.length % 2 = 1 →
      RTECustomizationArgsValidationOneOffJob.reduce key values =
        .error "IndexError: list index out of range") := by
  constructor
  · intro heven
    obtain ⟨out, hout⟩ := rtePairingLoop_even_ok values.flatten heven
    exact ⟨[(key, RteReduceVal.pairs (out.mergeSort rtePairLE))],
      by simp [RTECustomizationArgsValidationOneOffJob.reduce, hkey, hout,
        Except.map]⟩
  · intro hodd
    have hout := rtePairingLoop_odd_err values.flatten hodd
    simp [RTECustomizationArgsValidationOneOffJob.reduce, hkey, hout,
      Except.map]

/-- Witness for C10 at concrete inputs: an even-length flattened list
succeeds, an odd-length one raises. -/
theorem rte_reduce_pairing_bounds_witness :
    (∃ out, RTECustomizationArgsValidationOneOffJob.reduce "Invalid URL"
      [["err1", "exp1"]] = .ok out) ∧
    RTECustomizationArgsValidationOneOffJob.reduce "Invalid tag"
      [["err1"]] = .error "IndexError: list index out of range" :=
  ⟨(rte_reduce_pairing_bounds "Invalid URL" [["err1", "exp1"]]
      (by decide)).1 (by decide),
   (rte_reduce_pairing_bounds "Invalid tag" [["err1"]]
      (by decide)).2 (by decide)⟩

/-- All emissions of the deletion job's map phase over a list of
scanned `ExplorationMathRichTextInfoModel` records, in scan order. -/
def deletionJobEmissions (items : List ExplorationMathRichTextInfoModel) :
    List (String × Nat) :=
  (items.map
    (fun i => (ExplorationMathRichTextInfoModelDeletionOneOffJob.map i).1)).flatten

/-- C7: the deletion job's map emits exactly one `('model_deleted', 1)`
pair per scanned record, so the number of `model_deleted` emissions
equals the number of scanned records, and the reduce on the grouped
values reports an aggregate count equal to that number. -/
theorem deletion_job_counts (items : List ExplorationMathRichTextInfoModel) :
    deletionJobEmissions items =
      items.map (fun _ => ("model_deleted", 1)) ∧
    (deletionJobEmissions items).length = items.length ∧
    ExplorationMathRichTextInfoModelDeletionOneOffJob.reduce "model_deleted"
        ((deletionJobEmissions items).map Prod.snd) =
      [("model_deleted",
        [toString items.length ++ " models successfully delelted."])] := by
  have hemit : deletionJobEmissions items =
      items.map (fun _ => ("model_deleted", 1)) := by
    induction items with
    | nil => rfl
    | cons a t ih =>
      simp only [deletionJobEmissions,
        ExplorationMathRichTextInfoModelDeletionOneOffJob.map, List.map_cons,
        List.flatten_cons] at ih ⊢
      rw [ih]
      rfl
  refine ⟨hemit, by simp [hemit], ?_⟩
  rw [hemit]
  simp only [ExplorationMathRichTextInfoModelDeletionOneOffJob.reduce,
    List.map_map]
  have hc : (Prod.snd ∘ fun _ : ExplorationMathRichTextInfoModel =>
      (("model_deleted", 1) : String × Nat)) = fun _ => (1 : Nat) := rfl
  rw [hc, sum_map_one]

/-- C5: for a non-deleted record that loads but fails non-strict
validation, the migration job's map skips it: the failure is logged
and there is no versioned write and no emission. -/
theorem migration_map_validation_failure_skips (current : Nat)
    (item : ExplorationModel) (e : String) (hdel : item.deleted = false) :
    ExplorationMigrationJobManager.map (.ok ()) (.error e) current item =
      .ok ([], [Effect.log (nonStrictValidationMsg item.id e)]) := by
  simp [ExplorationMigrationJobManager.map, hdel]

/-- Witness for C5 at a concrete record. -/
theorem migration_map_validation_failure_skips_witness :
    ExplorationMigrationJobManager.map (.ok ()) (.error "bad html") 42
        (ExplorationModel.mk "exp1" false 30 "") =
      .ok ([], [Effect.log (nonStrictValidationMsg "exp1" "bad html")]) :=
  migration_map_validation_failure_skips 42
    (ExplorationModel.mk "exp1" false 30 "") "bad html" rfl

/-- C4: for a non-deleted record already at the current states schema
version, the migration job's map produces no emission and performs no
versioned write, for every outcome of the load and validation calls. -/
theorem migration_map_current_version_frame (load validate : Except String Unit)
    (current : Nat) (item : ExplorationModel) (hdel : item.deleted = false)
    (hver : item.states_schema_version = current)
    (es : List (String × String)) (fx : List Effect)
    (hok : ExplorationMigrationJobManager.map load validate current item =
      .ok (es, fx)) :
    es = [] ∧ fx.all (fun f => !f.isVersionedWrite) = true := by
  cases load with
  | error e => simp [ExplorationMigrationJobManager.map, hdel] at hok
  | ok u =>
    cases validate with
    | error e =>
      simp [ExplorationMigrationJobManager.map, hdel] at hok
      obtain ⟨hes, hfx⟩ := hok
      subst hes; subst hfx
      exact ⟨rfl, rfl⟩
    | ok u2 =>
      simp [ExplorationMigrationJobManager.map, hdel, hver] at hok
      obtain ⟨hes, hfx⟩ := hok
      subst hes; subst hfx
      exact ⟨rfl, rfl⟩

/-- Witness for C4 at a concrete record already at the current schema
version. -/
theorem migration_map_current_version_frame_witness :
    ([] : List (String × String)) = [] ∧
      ([] : List Effect).all (fun f => !f.isVersionedWrite) = true :=
  migration_map_current_version_frame (.ok ()) (.ok ()) 42
    (ExplorationModel.mk "exp1" false 42 "") rfl rfl [] [] rfl

/-- When every per-version update step below `current` succeeds, the
audit loop started strictly below `current` ends exactly at `current`
with one `('SUCCESS', 1)` emission and no effect. -/
theorem auditLoop_all_ok (step : Nat → Except String Unit) (expId : String)
    (current : Nat) (hok : ∀ w, w < current → step w = .ok ()) :
    ∀ n v, current - v = n → v < current →
      auditLoop step expId current v =
        (current, [("SUCCESS", AuditVal.n 1)], []) := by
  intro n
  induction n with
  | zero => intro v h0 hlt; omega
  | succ n ih =>
    intro v hn hlt
    rw [auditLoop, dif_pos hlt, hok v hlt]
    by_cases hv1 : v + 1 = current
    · rw [if_pos hv1, hv1, auditLoop, dif_neg (lt_irrefl current)]
      rfl
    · have hlt1 : v + 1 < current := by omega
      rw [ih (v + 1) (by omega) hlt1, if_neg hv1]
      rfl

/-- C6 counterexample: a non-deleted record already at the current
states schema version (so that every per-version update step succeeds
vacuously) produces no emission at all, not one `('SUCCESS', 1)`
emission. -/
theorem audit_map_at_current_version_emits_nothing :
    ExplorationMigrationAuditJob.map (fun _ => .ok ()) 5
        (ExplorationModel.mk "exp1" false 5 "") =
      (5, [], []) ∧
    ([] : List (String × AuditVal)) ≠ [("SUCCESS", AuditVal.n 1)] := by
  constructor
  · rw [ExplorationMigrationAuditJob.map]
    simp only [Bool.false_eq_true, if_false]
    rw [auditLoop, dif_neg (lt_irrefl 5)]
  · simp

/-- C6 amended: in the migration audit job's map, for every non-deleted
record whose stored states schema version is STRICTLY BELOW the
current states schema version, if every per-version update step of the
migration loop succeeds, the loop terminates with the record's states
schema version equal to the current version and exactly one
`('SUCCESS', 1)` emission is produced (and no effect). -/
theorem audit_map_success_amended (step : Nat → Except String Unit)
    (current : Nat) (item : ExplorationModel) (hdel : item.deleted = false)
    (hlt : item.states_schema_version < current)
    (hok : ∀ w, w < current → step w = .ok ()) :
    ExplorationMigrationAuditJob.map step current item =
      (current, [("SUCCESS", AuditVal.n 1)], []) := by
  rw [ExplorationMigrationAuditJob.map, hdel]
  simp only [Bool.false_eq_true, if_false]
  exact auditLoop_all_ok step item.id current hok
    (current - item.states_schema_version) item.states_schema_version rfl hlt

/-- Witness for the amended C6 at a concrete record two versions below
the current one. -/
theorem audit_map_success_amended_witness :
    ExplorationMigrationAuditJob.map (fun _ => .ok ()) 2
        (ExplorationModel.mk "exp1" false 0 "") =
      (2, [("SUCCESS", AuditVal.n 1)], []) :=
  audit_map_success_amended (fun _ => .ok ()) 2
    (ExplorationModel.mk "exp1" false 0 "") rfl (by decide)
    (fun w _ => rfl)

/-- C1 counterexample: the deletion job's map, given a record whose
deletion flag is set, still deletes it and emits `('model_deleted', 1)`
— it is not a no-op. -/
theorem deletion_map_emits_on_soft_deleted :
    ExplorationMathRichTextInfoModelDeletionOneOffJob.map
        (ExplorationMathRichTextInfoModel.mk "m1" true) =
      ([("model_deleted", 1)], [Effect.directDelete "m1"]) ∧
    ([("model_deleted", 1)] : List (String × Nat)) ≠ [] := by
  exact ⟨rfl, by simp⟩

/-- C1 amended: for the nine jobs scanning `ExplorationModel`, map on a
record whose deletion flag is set emits nothing and performs no side
effect; the two remaining jobs do not check the flag: the
first-published job still emits for a soft-deleted public rights
snapshot, and the deletion job always deletes the scanned model and
emits. -/
theorem soft_deleted_no_op_amended (validate : Bool → Except String Unit)
    (status : String) (step : Nat → Except String Unit) (current : Nat)
    (load validate1 : Except String Unit)
    (states : List (String × List String)) (latexList : List String)
    (rights : Option (String × Bool)) (hintStates : List (String × Nat))
    (err_dict : List (String × List String)) (item : ExplorationModel)
    (hdel : item.deleted = true)
    (snap : ExplorationRightsSnapshotContentModel)
    (hsnapdel : snap.deleted = true)
    (hpub : snap.status = ACTIVITY_STATUS_PUBLIC)
    (m : ExplorationMathRichTextInfoModel) (hmdel : m.deleted = true) :
    ExplorationValidityJobManager.map validate status item = ([], []) ∧
    ExplorationMigrationAuditJob.map step current item =
      (item.states_schema_version, [], []) ∧
    ExplorationMigrationJobManager.map load validate1 current item =
      .ok ([], []) ∧
    ExplorationMathSvgFilenameValidationOneOffJob.map states item =
      ([], []) ∧
    ExplorationMockMathMigrationOneOffJob.map status states item =
      ([], []) ∧
    ExplorationMathRichTextInfoModelGenerationOneOffJob.map validate1
      latexList item = ([], []) ∧
    ViewableExplorationsAuditJob.map rights item = ([], []) ∧
    HintsAuditOneOffJob.map hintStates item = ([], []) ∧
    ExplorationContentValidationJobForCKEditor.map load err_dict item =
      ([], []) ∧
    RTECustomizationArgsValidationOneOffJob.map load err_dict item =
      ([], []) ∧
    ExplorationFirstPublishedOneOffJob.map snap =
      ([(snap.instanceId, snap.createdOnMsec)], []) ∧
    ExplorationMathRichTextInfoModelDeletionOneOffJob.map m =
      ([("model_deleted", 1)], [Effect.directDelete m.id]) := by
  refine ⟨?_, ?_, ?_, ?_, ?_, ?_, ?_, ?_, ?_, ?_, ?_, rfl⟩
  · simp [ExplorationValidityJobManager.map, hdel]
  · simp [ExplorationMigrationAuditJob.map, hdel]
  · simp [ExplorationMigrationJobManager.map, hdel]
  · simp [ExplorationMathSvgFilenameValidationOneOffJob.map, hdel]
  · simp [ExplorationMockMathMigrationOneOffJob.map, hdel]
  · simp [ExplorationMathRichTextInfoModelGenerationOneOffJob.map, hdel]
  · simp [ViewableExplorationsAuditJob.map, hdel]
  · simp [HintsAuditOneOffJob.map, hdel]
  · simp [ExplorationContentValidationJobForCKEditor.map, hdel]
  · simp [RTECustomizationArgsValidationOneOffJob.map, hdel]
  · simp [ExplorationFirstPublishedOneOffJob.map, hpub]

/-- Witness for the amended C1 at concrete soft-deleted records. -/
theorem soft_deleted_no_op_amended_witness :
    ExplorationValidityJobManager.map (fun _ => .ok ()) "public"
        (ExplorationModel.mk "exp1" true 3 "") = ([], []) ∧
    ExplorationMigrationAuditJob.map (fun _ => .ok ()) 5
        (ExplorationModel.mk "exp1" true 3 "") = (3, [], []) ∧
    ExplorationMigrationJobManager.map (.ok ()) (.ok ()) 5
        (ExplorationModel.mk "exp1" true 3 "") = .ok ([], []) ∧
    ExplorationMathSvgFilenameValidationOneOffJob.map []
        (ExplorationModel.mk "exp1" true 3 "") = ([], []) ∧
    ExplorationMockMathMigrationOneOffJob.map "public" []
        (ExplorationModel.mk "exp1" true 3 "") = ([], []) ∧
    ExplorationMathRichTextInfoModelGenerationOneOffJob.map (.ok ()) []
        (ExplorationModel.mk "exp1" true 3 "") = ([], []) ∧
    ViewableExplorationsAuditJob.map none
        (ExplorationModel.mk "exp1" true 3 "") = ([], []) ∧
    HintsAuditOneOffJob.map []
        (ExplorationModel.mk "exp1" true 3 "") = ([], []) ∧
    ExplorationContentValidationJobForCKEditor.map (.ok ()) []
        (ExplorationModel.mk "exp1" true 3 "") = ([], []) ∧
    RTECustomizationArgsValidationOneOffJob.map (.ok ()) []
        (ExplorationModel.mk "exp1" true 3 "") = ([], []) ∧
    ExplorationFirstPublishedOneOffJob.map
        (ExplorationRightsSnapshotContentModel.mk "public" "exp1" 17 true) =
      ([("exp1", 17)], []) ∧
    ExplorationMathRichTextInfoModelDeletionOneOffJob.map
        (ExplorationMathRichTextInfoModel.mk "m1" true) =
      ([("model_deleted", 1)], [Effect.directDelete "m1"]) :=
  soft_deleted_no_op_amended (fun _ => .ok ()) "public" (fun _ => .ok ()) 5
    (.ok ()) (.ok ()) [] [] none [] []
    (ExplorationModel.mk "exp1" true 3 "") rfl
    (ExplorationRightsSnapshotContentModel.mk "public" "exp1" 17 true)
    rfl rfl (ExplorationMathRichTextInfoModel.mk "m1" true) rfl

/-- C2 counterexample: the SVG filename validation job's reduce yields
two output pairs (neither under the incoming key), not exactly one. -/
theorem math_svg_reduce_two_outputs :
    (ExplorationMathSvgFilenameValidationOneOffJob.reduce
        "Found invalid tags"
        [("exp1", [InvalidTagsInfo.mk "Introduction" ["err"] 1])]).length
      = 2 ∧
    (ExplorationMathSvgFilenameValidationOneOffJob.reduce
        "Found invalid tags"
        [("exp1", [InvalidTagsInfo.mk "Introduction" ["err"] 1])]).length
      ≠ 1 := by
  exact ⟨rfl, by decide⟩

/-- C2 amended: for every key and every non-empty grouped value list,
each job's reduce produces exactly one (key, aggregate) output pair,
except that the first-published job's reduce emits nothing (it writes
to the rights store instead), the SVG filename validation job's reduce
emits exactly two pairs, and the RTE customization-args job's reduce
emits one pair only for a loading-error key or an even-length
flattened value list (on an odd-length one it raises IndexError, cf.
C10). -/
theorem reduce_output_count_amended (rights : Option Unit)
    (exp_id key : String) (t : Int) (ts : List Int) (svals : List String)
    (nvals : List Nat) (ivals : List (String × List InvalidTagsInfo))
    (gvals : List (String × List String)) (lvals : List (List String))
    (svgSize : List String → Nat) (longestOf : List String → String)
    (maxBatchBytes : Nat) :
    (∃ fx, ExplorationFirstPublishedOneOffJob.reduce rights exp_id
      (t :: ts) = .ok ([], fx)) ∧
    (ExplorationValidityJobManager.reduce key svals).length = 1 ∧
    (ExplorationMigrationAuditJob.reduce key svals).length = 1 ∧
    (ExplorationMigrationJobManager.reduce key svals).length = 1 ∧
    (ExplorationMathSvgFilenameValidationOneOffJob.reduce key ivals).length
      = 2 ∧
    (ExplorationMockMathMigrationOneOffJob.reduce key svals).length = 1 ∧
    ((ExplorationMathRichTextInfoModelGenerationOneOffJob.reduce svgSize
      longestOf maxBatchBytes key gvals).1).length = 1 ∧
    (ExplorationMathRichTextInfoModelDeletionOneOffJob.reduce key
      nvals).length = 1 ∧
    (ViewableExplorationsAuditJob.reduce key svals).length = 1 ∧
    (HintsAuditOneOffJob.reduce key svals).length = 1 ∧
    (ExplorationContentValidationJobForCKEditor.reduce key lvals).length
      = 1 ∧
    (containsSub "loading exploration".data key.data = true →
      ∃ out, RTECustomizationArgsValidationOneOffJob.reduce key lvals =
        .ok out ∧ out.length = 1) ∧
    (lvals.flatten.length % 2 = 0 →
      ∃ out, RTECustomizationArgsValidationOneOffJob.reduce key lvals =
        .ok out ∧ out.length = 1) := by
  refine ⟨?_, rfl, ?_, rfl, rfl, rfl, ?_, rfl, rfl, rfl, ?_, ?_, ?_⟩
  · cases rights with
    | none => exact ⟨[], rfl⟩
    | some u =>
      exact ⟨[Effect.rightsFirstPublishedWrite exp_id (ts.foldl min t)], rfl⟩
  · by_cases hk : key = "SUCCESS" <;>
      simp [ExplorationMigrationAuditJob.reduce, hk]
  · by_cases hk : key = mathTagsSuccessKey <;>
      simp [ExplorationMathRichTextInfoModelGenerationOneOffJob.reduce, hk]
  · rcases h : findSub "Exp Id:".data key.data with _ | i <;>
      simp [ExplorationContentValidationJobForCKEditor.reduce, h]
  · intro hkey
    exact ⟨[(key, RteReduceVal.flat lvals.flatten)],
      by simp [RTECustomizationArgsValidationOneOffJob.reduce, hkey], rfl⟩
  · intro heven
    by_cases hkey : containsSub "loading exploration".data key.data
    · exact ⟨[(key, RteReduceVal.flat lvals.flatten)],
        by simp [RTECustomizationArgsValidationOneOffJob.reduce, hkey], rfl⟩
    · obtain ⟨out, hout⟩ := rtePairingLoop_even_ok lvals.flatten heven
      exact ⟨[(key, RteReduceVal.pairs (out.mergeSort rtePairLE))],
        by simp [RTECustomizationArgsValidationOneOffJob.reduce, hkey, hout,
          Except.map], rfl⟩

/-- Witness for the amended C2 at concrete keys and non-empty grouped
values. -/
theorem reduce_output_count_amended_witness :
    (∃ fx, ExplorationFirstPublishedOneOffJob.reduce (some ()) "exp1"
      [3, 7] = .ok ([], fx)) ∧
    (ExplorationValidityJobManager.reduce "exp1" ["err"]).length = 1 ∧
    (ExplorationMigrationAuditJob.reduce "exp1" ["err"]).length = 1 ∧
    (ExplorationMigrationJobManager.reduce "exp1" ["err"]).length = 1 ∧
    (ExplorationMathSvgFilenameValidationOneOffJob.reduce "exp1"
      [("exp1", [InvalidTagsInfo.mk "s" ["e"] 1])]).length = 2 ∧
    (ExplorationMockMathMigrationOneOffJob.reduce "exp1" ["err"]).length
      = 1 ∧
    ((ExplorationMathRichTextInfoModelGenerationOneOffJob.reduce
      (fun _ => 100) (fun _ => "x") 1000 "exp1"
      [("exp1", ["x"])]).1).length = 1 ∧
    (ExplorationMathRichTextInfoModelDeletionOneOffJob.reduce "exp1"
      [1]).length = 1 ∧
    (ViewableExplorationsAuditJob.reduce "exp1" ["t"]).length = 1 ∧
    (HintsAuditOneOffJob.reduce "exp1" ["t"]).length = 1 ∧
    (ExplorationContentValidationJobForCKEditor.reduce "exp1"
      [["e"]]).length = 1 ∧
    (∃ out, RTECustomizationArgsValidationOneOffJob.reduce
      "Error x when loading exploration" [["e"]] = .ok out ∧
      out.length = 1) ∧
    (∃ out, RTECustomizationArgsValidationOneOffJob.reduce "exp1"
      [["e", "exp1"]] = .ok out ∧ out.length = 1) := by
  have h1 := reduce_output_count_amended (some ()) "exp1" "exp1" 3 [7]
    ["err"] [1] [("exp1", [InvalidTagsInfo.mk "s" ["e"] 1])]
    [("exp1", ["x"])] [["e"]] (fun _ => 100) (fun _ => "x") 1000
  have h2 := reduce_output_count_amended (some ()) "exp1" "exp1" 3 [7]
    ["err"] [1] [("exp1", [InvalidTagsInfo.mk "s" ["e"] 1])]
    [("exp1", ["x"])] [["e", "exp1"]] (fun _ => 100) (fun _ => "x") 1000
  have h3 := reduce_output_count_amended (some ()) "exp1"
    "Error x when loading exploration" 3 [7]
    ["err"] [1] [("exp1", [InvalidTagsInfo.mk "s" ["e"] 1])]
    [("exp1", ["x"])] [["e"]] (fun _ => 100) (fun _ => "x") 1000
  exact ⟨h1.1, h1.2.1, h1.2.2.1, h1.2.2.2.1, h1.2.2.2.2.1,
    h1.2.2.2.2.2.1, h1.2.2.2.2.2.2.1, h1.2.2.2.2.2.2.2.1,
    h1.2.2.2.2.2.2.2.2.1, h1.2.2.2.2.2.2.2.2.2.1,
    h1.2.2.2.2.2.2.2.2.2.2.1,
    h3.2.2.2.2.2.2.2.2.2.2.2.1 (by decide),
    h2.2.2.2.2.2.2.2.2.2.2.2.2 (by decide)⟩

/-- C3 counterexample: the migration job's map catches a per-record
validation failure on a non-deleted record but reports it only through
a log effect — the emission list is empty, so the failure is NOT
reported as an emission under an error-category key. -/
theorem migration_map_logs_without_emission :
    ExplorationMigrationJobManager.map (.ok ()) (.error "bad schema") 42
        (ExplorationModel.mk "exp1" false 30 "") =
      .ok ([], [Effect.log (nonStrictValidationMsg "exp1" "bad schema")]) := by
  exact rfl

/-- C3 amended: per-record failures that the code catches are handled
locally and never propagate; the audit, generation, CKEditor and RTE
jobs report them as an emission under a distinguishing error-category
key, the validity job reports validation errors under the record id,
but the migration job only logs a caught validation failure, emitting
nothing for that record. -/
theorem per_record_failure_handling_amended (status e : String)
    (current : Nat) (item : ExplorationModel)
    (err_dict : List (String × List String)) (hdel : item.deleted = false) :
    ExplorationValidityJobManager.map (fun _ => .error e) status item =
      ([(item.id, e)], []) ∧
    (∀ step : Nat → Except String Unit,
      item.states_schema_version < current →
      step item.states_schema_version = .error e →
      ExplorationMigrationAuditJob.map step current item =
        (item.states_schema_version,
         [("MIGRATION_ERROR", AuditVal.err
            (auditErrMsg item.id (item.states_schema_version + 1) e))],
         [Effect.log
            (auditErrMsg item.id (item.states_schema_version + 1) e)])) ∧
    (∀ latexList : List String,
      ExplorationMathRichTextInfoModelGenerationOneOffJob.map (.error e)
        latexList item =
      ([("validation_error", GenVal.err (nonStrictValidationMsg item.id e))],
       [Effect.log (nonStrictValidationMsg item.id e)])) ∧
    ExplorationContentValidationJobForCKEditor.map (.error e) err_dict
      item = ([(loadingErrorKey e, [item.id])], []) ∧
    RTECustomizationArgsValidationOneOffJob.map (.error e) err_dict item =
      ([(loadingErrorKey e, [item.id])], []) ∧
    ExplorationMigrationJobManager.map (.ok ()) (.error e) current item =
      .ok ([], [Effect.log (nonStrictValidationMsg item.id e)]) := by
  refine ⟨?_, ?_, ?_, ?_, ?_, ?_⟩
  · simp [ExplorationValidityJobManager.map, hdel]
  · intro step hlt hstep
    rw [ExplorationMigrationAuditJob.map, hdel]
    simp only [Bool.false_eq_true, if_false]
    rw [auditLoop, dif_pos hlt, hstep]
  · intro latexList
    simp [ExplorationMathRichTextInfoModelGenerationOneOffJob.map, hdel]
  · simp [ExplorationContentValidationJobForCKEditor.map, hdel]
  · simp [RTECustomizationArgsValidationOneOffJob.map, hdel]
  · simp [ExplorationMigrationJobManager.map, hdel]

/-- Witness for the amended C3 at a concrete record and failure. -/
theorem per_record_failure_handling_amended_witness :
    ExplorationValidityJobManager.map (fun _ => .error "bad") "public"
        (ExplorationModel.mk "exp1" false 3 "") = ([("exp1", "bad")], []) ∧
    ExplorationMigrationAuditJob.map (fun _ => .error "bad") 5
        (ExplorationModel.mk "exp1" false 3 "") =
      (3, [("MIGRATION_ERROR", AuditVal.err (auditErrMsg "exp1" 4 "bad"))],
       [Effect.log (auditErrMsg "exp1" 4 "bad")]) ∧
    ExplorationMathRichTextInfoModelGenerationOneOffJob.map (.error "bad")
        [] (ExplorationModel.mk "exp1" false 3 "") =
      ([("validation_error", GenVal.err (nonStrictValidationMsg "exp1" "bad"))],
       [Effect.log (nonStrictValidationMsg "exp1" "bad")]) ∧
    ExplorationContentValidationJobForCKEditor.map (.error "bad") []
        (ExplorationModel.mk "exp1" false 3 "") =
      ([(loadingErrorKey "bad", ["exp1"])], []) ∧
    RTECustomizationArgsValidationOneOffJob.map (.error "bad") []
        (ExplorationModel.mk "exp1" false 3 "") =
      ([(loadingErrorKey "bad", ["exp1"])], []) ∧
    ExplorationMigrationJobManager.map (.ok ()) (.error "bad") 5
        (ExplorationModel.mk "exp1" false 3 "") =
      .ok ([], [Effect.log (nonStrictValidationMsg "exp1" "bad")]) := by
  have h := per_record_failure_handling_amended "public" "bad" 5
    (ExplorationModel.mk "exp1" false 3 "") [] rfl
  exact ⟨h.1, h.2.1 (fun _ => .error "bad") (by decide) rfl, h.2.2.1 [],
    h.2.2.2.1, h.2.2.2.2.1, h.2.2.2.2.2⟩

/-- C8 counterexample: the CKEditor content validation job's map, on a
single non-deleted record whose error dictionary has two non-empty
error categories, yields two error emissions — more than one fate. -/
theorem ckeditor_map_two_emissions :
    (ExplorationContentValidationJobForCKEditor.map (.ok ())
        [("invalid tags", ["e1"]), ("strings", ["e2"])]
        (ExplorationModel.mk "exp1" false 1 "")).1 =
      [("invalid tags Exp Id: exp1", ["e1"]),
       ("strings Exp Id: exp1", ["e2"])] ∧
    (ExplorationContentValidationJobForCKEditor.map (.ok ())
        [("invalid tags", ["e1"]), ("strings", ["e2"])]
        (ExplorationModel.mk "exp1" false 1 "")).1.length ≠ 1 := by
  exact ⟨rfl, by decide⟩

/-- C8 amended: the math rich-text info generation job's map yields
exactly one fate per scanned record (at most one emission: silent
pass, one success emission, or one error emission), but the CKEditor
content validation job's map yields one error emission per error
category with a non-empty error list, so a single record may yield
several emissions. -/
theorem map_fate_amended (validate : Except String Unit)
    (latexList : List String) (load : Except String Unit)
    (err_dict : List (String × List String)) (item : ExplorationModel) :
    (ExplorationMathRichTextInfoModelGenerationOneOffJob.map validate
      latexList item).1.length ≤ 1 ∧
    (item.deleted = false → load = .ok () →
      (ExplorationContentValidationJobForCKEditor.map load err_dict
        item).1.length =
      (err_dict.filter (fun p => p.2 ≠ [])).length) := by
  constructor
  · cases hdel : item.deleted with
    | true =>
      simp [ExplorationMathRichTextInfoModelGenerationOneOffJob.map, hdel]
    | false =>
      cases validate with
      | error e =>
        simp [ExplorationMathRichTextInfoModelGenerationOneOffJob.map, hdel]
      | ok u =>
        by_cases hl : 0 < latexList.length <;>
          simp [ExplorationMathRichTextInfoModelGenerationOneOffJob.map,
            hdel, hl]
  · intro hdel hload
    subst hload
    simp [ExplorationContentValidationJobForCKEditor.map, hdel]

/-- Witness for the amended C8 at concrete records. -/
theorem map_fate_amended_witness :
    (ExplorationMathRichTextInfoModelGenerationOneOffJob.map
      (.error "bad") ["x"] (ExplorationModel.mk "exp1" false 1 "")).1.length
      ≤ 1 ∧
    (ExplorationContentValidationJobForCKEditor.map (.ok ())
        [("invalid tags", ["e1"]), ("strings", ["e2"])]
        (ExplorationModel.mk "exp1" false 1 "")).1.length =
      (([("invalid tags", ["e1"]), ("strings", ["e2"])] :
        List (String × List String)).filter
          (fun p => p.2 ≠ [])).length :=
  ⟨(map_fate_amended (.error "bad") ["x"] (.ok ())
      [("invalid tags", ["e1"]), ("strings", ["e2"])]
      (ExplorationModel.mk "exp1" false 1 "")).1,
   (map_fate_amended (.error "bad") ["x"] (.ok ())
      [("invalid tags", ["e1"]), ("strings", ["e2"])]
      (ExplorationModel.mk "exp1" false 1 "")).2 rfl rfl⟩

/-- Helper for C9: every effect of the audit loop is a log. -/
theorem auditLoop_effects_log (step : Nat → Except String Unit)
    (expId : String) (current : Nat) :
    ∀ n v, current - v = n →
      ((auditLoop step expId current v).2.2).all Effect.isLog = true := by
  intro n
  induction n with
  | zero =>
    intro v h0
    rw [auditLoop, dif_neg (by omega)]
    rfl
  | succ n ih =>
    intro v hn
    rw [auditLoop]
    by_cases hv : v < current
    · rw [dif_pos hv]
      cases hstep : step v with
      | error e => simp [Effect.isLog]
      | ok u => simpa using ih (v + 1) (by omega)
    · rw [dif_neg hv]
      rfl

/-- C9 counterexample: the deletion job's map mutates the scanned
record by deleting it directly (`item.delete()`), an effect that is
not a versioned write through the commit API — and the job's purpose
is deletion, not migration. -/
theorem deletion_map_direct_delete :
    (ExplorationMathRichTextInfoModelDeletionOneOffJob.map
        (ExplorationMathRichTextInfoModel.mk "m1" false)).2 =
      [Effect.directDelete "m1"] ∧
    Effect.isVersionedWrite (Effect.directDelete "m1") = false := by
  exact ⟨rfl, rfl⟩

/-- C9 amended: no job's map mutates the record being scanned except
the migration job — whose only effects are logging and the versioned
write through the document store's commit API — and the deletion job,
whose map deletes the scanned model directly; the audit and generation
maps additionally only log. -/
theorem map_mutation_discipline_amended
    (validate : Bool → Except String Unit) (status : String)
    (step : Nat → Except String Unit) (current : Nat)
    (load validate1 : Except String Unit)
    (states : List (String × List String)) (latexList : List String)
    (rights : Option (String × Bool)) (hintStates : List (String × Nat))
    (err_dict : List (String × List String)) (item : ExplorationModel)
    (snap : ExplorationRightsSnapshotContentModel)
    (m : ExplorationMathRichTextInfoModel) :
    (ExplorationFirstPublishedOneOffJob.map snap).2 = [] ∧
    (ExplorationValidityJobManager.map validate status item).2 = [] ∧
    ((ExplorationMigrationAuditJob.map step current item).2.2).all
      Effect.isLog = true ∧
    (∀ es fx, ExplorationMigrationJobManager.map load validate1 current
        item = .ok (es, fx) →
      fx.all (fun f => f.isLog || f.isVersionedWrite) = true) ∧
    (ExplorationMathSvgFilenameValidationOneOffJob.map states item).2
      = [] ∧
    (ExplorationMockMathMigrationOneOffJob.map status states item).2
      = [] ∧
    ((ExplorationMathRichTextInfoModelGenerationOneOffJob.map validate1
      latexList item).2).all Effect.isLog = true ∧
    (ViewableExplorationsAuditJob.map rights item).2 = [] ∧
    (HintsAuditOneOffJob.map hintStates item).2 = [] ∧
    (ExplorationContentValidationJobForCKEditor.map load err_dict
      item).2 = [] ∧
    (RTECustomizationArgsValidationOneOffJob.map load err_dict item).2
      = [] ∧
    (ExplorationMathRichTextInfoModelDeletionOneOffJob.map m).2 =
      [Effect.directDelete m.id] := by
  refine ⟨?_, ?_, ?_, ?_, ?_, ?_, ?_, ?_, ?_, ?_, ?_, rfl⟩
  · by_cases hs : snap.status = ACTIVITY_STATUS_PUBLIC <;>
      simp [ExplorationFirstPublishedOneOffJob.map, hs]
  · cases hdel : item.deleted with
    | true => simp [ExplorationValidityJobManager.map, hdel]
    | false =>
      cases validate (status ≠ ACTIVITY_STATUS_PRIVATE) <;>
        simp [ExplorationValidityJobManager.map, hdel] <;>
        split <;> simp_all
  · cases hdel : item.deleted with
    | true => simp [ExplorationMigrationAuditJob.map, hdel]
    | false =>
      rw [ExplorationMigrationAuditJob.map, hdel]
      simp only [Bool.false_eq_true, if_false]
      exact auditLoop_effects_log step item.id current
        (current - item.states_schema_version) item.states_schema_version
        rfl
  · intro es fx hok
    cases hdel : item.deleted with
    | true =>
      simp [ExplorationMigrationJobManager.map, hdel] at hok
      rw [hok.2]
      rfl
    | false =>
      cases load with
      | error e => simp [ExplorationMigrationJobManager.map, hdel] at hok
      | ok u =>
        cases validate1 with
        | error e =>
          simp [ExplorationMigrationJobManager.map, hdel] at hok
          rw [← hok.2]
          rfl
        | ok u2 =>
          by_cases hv : item.states_schema_version = current
          · simp [ExplorationMigrationJobManager.map, hdel, hv] at hok
            rw [hok.2]
            rfl
          · simp [ExplorationMigrationJobManager.map, hdel, hv] at hok
            rw [← hok.2]
            rfl
  · cases hdel : item.deleted with
    | true =>
      simp [ExplorationMathSvgFilenameValidationOneOffJob.map, hdel]
    | false =>
      simp only [ExplorationMathSvgFilenameValidationOneOffJob.map, hdel,
        Bool.false_eq_true, if_false]
      split <;> rfl
  · cases hdel : item.deleted <;>
      simp [ExplorationMockMathMigrationOneOffJob.map, hdel]
  · cases hdel : item.deleted with
    | true =>
      simp [ExplorationMathRichTextInfoModelGenerationOneOffJob.map, hdel]
    | false =>
      cases validate1 with
      | error e =>
        simp [ExplorationMathRichTextInfoModelGenerationOneOffJob.map,
          hdel, Effect.isLog]
      | ok u =>
        by_cases hl : 0 < latexList.length <;>
          simp [ExplorationMathRichTextInfoModelGenerationOneOffJob.map,
            hdel, hl]
  · cases hdel : item.deleted with
    | true => simp [ViewableExplorationsAuditJob.map, hdel]
    | false =>
      cases rights with
      | none => simp [ViewableExplorationsAuditJob.map, hdel]
      | some r =>
        simp only [ViewableExplorationsAuditJob.map, hdel,
          Bool.false_eq_true, if_false]
        split <;> rfl
  · cases hdel : item.deleted <;> simp [HintsAuditOneOffJob.map, hdel]
  · cases hdel : item.deleted with
    | true => simp [ExplorationContentValidationJobForCKEditor.map, hdel]
    | false =>
      cases load <;>
        simp [ExplorationContentValidationJobForCKEditor.map, hdel]
  · cases hdel : item.deleted with
    | true => simp [RTECustomizationArgsValidationOneOffJob.map, hdel]
    | false =>
      cases load <;>
        simp [RTECustomizationArgsValidationOneOffJob.map, hdel]

/-- Witness for the amended C9 at concrete records and oracles. -/
theorem map_mutation_discipline_amended_witness :
    (ExplorationFirstPublishedOneOffJob.map
      (ExplorationRightsSnapshotContentModel.mk "public" "exp1" 17
        false)).2 = [] ∧
    (ExplorationValidityJobManager.map (fun _ => .ok ()) "public"
      (ExplorationModel.mk "exp1" false 3 "")).2 = [] ∧
    ((ExplorationMigrationAuditJob.map (fun _ => .ok ()) 5
      (ExplorationModel.mk "exp1" false 3 "")).2.2).all Effect.isLog
      = true ∧
    (([Effect.versionedWrite "exp1" 3 5] : List Effect).all
      (fun f => f.isLog || f.isVersionedWrite)) = true ∧
    (ExplorationMathRichTextInfoModelDeletionOneOffJob.map
      (ExplorationMathRichTextInfoModel.mk "m1" false)).2 =
      [Effect.directDelete "m1"] := by
  have h := map_mutation_discipline_amended (fun _ => .ok ()) "public"
    (fun _ => .ok ()) 5 (.ok ()) (.ok ()) [] [] none [] []
    (ExplorationModel.mk "exp1" false 3 "")
    (ExplorationRightsSnapshotContentModel.mk "public" "exp1" 17 false)
    (ExplorationMathRichTextInfoModel.mk "m1" false)
  exact ⟨h.1, h.2.1, h.2.2.1,
    h.2.2.2.1 [("SUCCESS", "exp1")] [Effect.versionedWrite "exp1" 3 5] rfl,
    h.2.2.2.2.2.2.2.2.2.2.2⟩
